import Mathlib

/-!
Verification development for the abTEM array-object + ensemble-transform
framework.

The definitions below are a shallow embedding of the Python sources:

 - `src/abtem/core/array.py` — `ArrayObject` and its operations (reductions,
   arithmetic, indexing, stacking, expand/squeeze, zarr persistence);
 - `src/abtem/transform.py` — `CompositeArrayObjectTransform._calculate_new_array`;
 - `src/abtem/core/transform.py` — `CompositeWaveTransform.apply`;
 - `src/abtem/waves/scan.py` — `CustomScan.sort_into_extents`.

Arrays (numpy / dask) are modelled as a flat row-major list of rational
values together with a shape and a laziness flag: a dask array holds the
same values but is flagged lazy, and `compute` would clear the flag.  The
backend reduction kernels (`numpy.mean`, `numpy.sum`, ...) are external
collaborators and appear as function parameters `op : List Rat → Rat`.

The axis-metadata module (`abtem/core/axes.py`) is not part of the sources;
where its behaviour decides a claim it is modelled from the spec and marked
`Modelled from the spec:` in the doc comment.
-/

/-- Insert an element at an index, clamping to the end like Python
`list.insert` does. -/
def listInsertAt {α : Type} : List α → Nat → α → List α
  | l, 0, a => a :: l
  | [], _ + 1, a => [a]
  | x :: xs, n + 1, a => x :: listInsertAt xs n a

/-- Remove the element at an index, identity when out of range. -/
def listEraseAt {α : Type} : List α → Nat → List α
  | [], _ => []
  | _ :: xs, 0 => xs
  | x :: xs, n + 1 => x :: listEraseAt xs n

/-- All coordinate tuples of an n-dimensional shape in row-major order. -/
def allCoords : List Nat → List (List Nat)
  | [] => [[]]
  | n :: s => ((List.range n).map (fun i => (allCoords s).map (fun c => i :: c))).flatten

/-- Row-major flat index of a coordinate tuple. -/
def flatIdx : List Nat → List Nat → Nat
  | [], _ => 0
  | _ :: s, c => c.headD 0 * s.prod + flatIdx s (c.drop 1)

/-- Normalize one bound of a Python slice against a length `n`
(step 1, CPython `slice.indices` semantics). -/
def normSliceBound (a : Int) (n : Nat) : Nat :=
  if a < 0 then ((n : Int) + a).toNat else min a.toNat n

/-- Length of the Python slice `a:b` of a dimension of size `n`. -/
def sliceLen (n : Nat) (a b : Int) : Nat :=
  normSliceBound b n - normSliceBound a n

/-- Python slice `v[a:b]` of a list (step 1). -/
def pySlice {α : Type} (v : List α) (a b : Int) : List α :=
  (v.drop (normSliceBound a v.length)).take (sliceLen v.length a b)

/-- Python `l[-b:]` for a list of dimensions (`shape[-base_dims:]`):
with `b = 0` this is the whole list. -/
def pyTail (l : List Nat) (b : Nat) : List Nat :=
  if b = 0 then l else l.drop (l.length - b)

/-- Python `l[:-b]` for a list of dimensions (`shape[:-base_dims]`):
with `b = 0` this is the empty list. -/
def pyInit (l : List Nat) (b : Nat) : List Nat :=
  if b = 0 then [] else l.take (l.length - b)

/-- Normalize a (possibly negative) Python integer index against a length. -/
def pyIdx (i : Int) (n : Nat) : Nat :=
  if i < 0 then ((n : Int) + i).toNat else i.toNat

/-- Axis metadata variants, from spec section 3: UnknownAxis, OrdinalAxis
(ordered values, one per position along the axis), ParameterAxis (a
distribution of parameter values with an ensemble-mean flag), ScanAxis and
PositionsAxis. -/
inductive AxisMetadata where
  | unknown
  | ordinal (label : String) (values : List String)
  | param (label : String) (values : List Rat) (ensembleMean : Bool)
  | scanAx (label : String) (sampling offset : Rat) (endpoint : Bool)
  | positions (values : List (Rat × Rat))
deriving DecidableEq, Repr

/-- Modelled from the spec: `abtem/core/axes.py` is not under `src/`.  The
spec (section 4.1) says integer indexing folds the axis value selected at
the given index into the free-form metadata via the axis item-metadata
extraction; for an `OrdinalAxis` that is its value at the index, keyed by
its label.  Axes without per-item values contribute nothing. -/
def itemMeta (ax : AxisMetadata) (i : Nat) : List (String × String) :=
  match ax with
  | .ordinal label vs => [(label, vs.getD i "")]
  | _ => []

/-- Items accepted by `ArrayObject.get_items`: an integer, a slice, or
`None` (numpy `newaxis`). -/
inductive Item where
  | idx (i : Int)
  | slc (a b : Int)
  | newaxis
deriving DecidableEq, Repr

/-- Modelled from the spec: slicing an axis-metadata object
(`axis[item]` in `get_items`) re-slices an `OrdinalAxis`'s values exactly
like slicing a plain sequence; other axis kinds are value objects returned
unchanged. -/
def axisGet (ax : AxisMetadata) (it : Item) : AxisMetadata :=
  match ax, it with
  | .ordinal label vs, .slc a b => .ordinal label (pySlice vs a b)
  | _, _ => ax

/-- The numeric array of an array object: a dense row-major value list plus
shape.  `lazy` records whether it is a chunked dask array (`is_lazy` in the
source checks `isinstance(array, dask.array.Array)`); a lazy array holds
the values its graph would compute. -/
structure Arr where
  shape : List Nat
  data : List Rat
  lazy : Bool
deriving DecidableEq, Repr

/-- Element of an array at a coordinate tuple (0 when out of range). -/
def Arr.get (a : Arr) (c : List Nat) : Rat :=
  a.data.getD (flatIdx a.shape c) 0

/-- Result shape of numpy basic indexing `array[items]`: integers consume a
dimension, slices keep a (clipped) dimension, `None` inserts a length-one
dimension, and unconsumed trailing dimensions are kept. -/
def idxShape : List Nat → List Item → List Nat
  | s, [] => s
  | s, .newaxis :: rest => 1 :: idxShape s rest
  | [], .idx _ :: rest => idxShape [] rest
  | _ :: s, .idx _ :: rest => idxShape s rest
  | [], .slc _ _ :: rest => idxShape [] rest
  | n :: s, .slc a b :: rest => sliceLen n a b :: idxShape s rest

/-- Source coordinate corresponding to a coordinate of `array[items]`. -/
def srcCoord : List Nat → List Item → List Nat → List Nat
  | _, [], c => c
  | s, .newaxis :: rest, c => srcCoord s rest (c.drop 1)
  | [], .idx _ :: rest, c => srcCoord [] rest c
  | n :: s, .idx i :: rest, c => pyIdx i n :: srcCoord s rest c
  | [], .slc _ _ :: rest, c => srcCoord [] rest c
  | n :: s, .slc a _ :: rest, c =>
      (normSliceBound a n + c.headD 0) :: srcCoord s rest (c.drop 1)

/-- Numpy basic indexing `array[items]` (values and shape). -/
def indexArr (a : Arr) (items : List Item) : Arr :=
  let outShape := idxShape a.shape items
  ⟨outShape, (allCoords outShape).map (fun c => a.get (srcCoord a.shape items c)), a.lazy⟩

/-- Rebuild a full source coordinate from a coordinate of the reduced array
(`c`) and a coordinate over the reduced axes (`rc`); with `keepdims` the
reduced axes still occupy (size-one) positions of `c`. -/
def mergeCoord (axes : List Nat) (keepdims : Bool) :
    Nat → List Nat → List Nat → List Nat → List Nat
  | _, [], _, _ => []
  | i, _ :: srest, c, rc =>
    if i ∈ axes then
      rc.headD 0 ::
        mergeCoord axes keepdims (i + 1) srest (if keepdims then c.drop 1 else c) (rc.drop 1)
    else
      c.headD 0 :: mergeCoord axes keepdims (i + 1) srest (c.drop 1) rc

/-- Numpy/dask reduction of an array over a set of axes with a backend
kernel `op` (`numpy.mean`, `numpy.sum`, ...): each output element is the
kernel applied to the line of elements varying the reduced axes. -/
def reduceArr (op : List Rat → Rat) (a : Arr) (axes : List Nat) (keepdims : Bool) : Arr :=
  let outShape :=
    if keepdims then a.shape.enum.map (fun p => if p.1 ∈ axes then 1 else p.2)
    else (a.shape.enum.filter (fun p => p.1 ∉ axes)).map Prod.snd
  let redDims := (a.shape.enum.filter (fun p => p.1 ∈ axes)).map Prod.snd
  ⟨outShape,
    (allCoords outShape).map (fun c =>
      op ((allCoords redDims).map (fun rc => a.get (mergeCoord axes keepdims 0 a.shape c rc)))),
    a.lazy⟩

/-- Numpy/dask `stack` of same-shaped arrays along a new axis. -/
def stackArr (arrs : List Arr) (axis : Nat) : Arr :=
  let first := arrs.headD ⟨[], [], false⟩
  let outShape := listInsertAt first.shape axis arrs.length
  ⟨outShape,
    (allCoords outShape).map (fun c =>
      (arrs.getD (c.getD axis 0) ⟨[], [], false⟩).get (listEraseAt c axis)),
    first.lazy⟩

/-- Shape produced by the module-level `expand_dims` helper of
`src/abtem/core/array.py` (a reshape inserting size-one dimensions at the
given positions). -/
def expandShapeAux : Nat → Nat → List Nat → List Nat → List Nat
  | _, 0, _, _ => []
  | i, k + 1, axes, s =>
    if i ∈ axes then 1 :: expandShapeAux (i + 1) k axes s
    else s.headD 1 :: expandShapeAux (i + 1) k axes s.tail

/-- The module-level `expand_dims` of `src/abtem/core/array.py`: a reshape,
so the row-major data is unchanged. -/
def expandArr (a : Arr) (axes : List Nat) : Arr :=
  ⟨expandShapeAux 0 (a.shape.length + axes.length) axes a.shape, a.data, a.lazy⟩

/-- Numpy `squeeze` at the given (size-one) positions: a reshape. -/
def squeezeArr (a : Arr) (idxs : List Nat) : Arr :=
  ⟨(a.shape.enum.filter (fun p => p.1 ∉ idxs)).map Prod.snd, a.data, a.lazy⟩

/-- Elementwise arithmetic of two same-shaped arrays; a dask operand makes
the result lazy. -/
def zipArr (f : Rat → Rat → Rat) (a b : Arr) : Arr :=
  ⟨a.shape, List.zipWith f a.data b.data, a.lazy || b.lazy⟩

/-- Lookup in a Python-dict model (association list, first match). -/
def dictLookup (d : List (String × String)) (k : String) : Option String :=
  match d with
  | [] => none
  | (k2, v) :: rest => if k2 = k then some v else dictLookup rest k

/-- Python dict merge `{**a, **b}`: keys of `a` in order with values
overridden by `b`, then the new keys of `b`. -/
def mergeDict (a b : List (String × String)) : List (String × String) :=
  (a.map (fun p => match dictLookup b p.1 with | some v => (p.1, v) | none => p)) ++
    b.filter (fun p => (dictLookup a p.1).isNone)

/-- A concrete `ArrayObject` subtype of `src/abtem/core/array.py`: the
backing array plus the constructor kwargs the framework carries around
(`_copy_kwargs`): the ensemble axis metadata, the free-form metadata dict,
and — standing in for the per-subtype class attributes — the base dimension
count, the base axes metadata and the concrete class name. -/
structure AObj where
  array : Arr
  base_dims : Nat
  baseAxesMetadata : List AxisMetadata
  ensemble_axes_metadata : List AxisMetadata
  metadata : List (String × String)
  cls : String
deriving DecidableEq, Repr

/-- `ArrayObject.ensemble_shape`: `shape[:-base_dims]` (with the Python
quirk that `base_dims = 0` yields the empty tuple). -/
def AObj.ensembleShape (x : AObj) : List Nat :=
  pyInit x.array.shape x.base_dims

/-- `ArrayObject.base_shape`: `shape[-base_dims:]` (with the Python quirk
that `base_dims = 0` yields the whole shape). -/
def AObj.baseShape (x : AObj) : List Nat :=
  pyTail x.array.shape x.base_dims

/-- `ArrayObject._is_base_axis` exactly as written in the source: it
intersects the given axes with `range(len(self.base_shape))`, i.e. with the
first `base_dims` axis indices. -/
def AObj.isBaseAxis (x : AObj) (axes : List Nat) : Bool :=
  axes.any (fun a => a < x.baseShape.length)

/-- Result of `ArrayObject._reduction`: with `axis=None` the raw backend
reduction of the whole array (a bare scalar, lazy for a dask input) is
returned; otherwise a new array object. -/
inductive ReduceResult where
  | raw (value : Rat) (lazy : Bool)
  | obj (x : AObj)
deriving DecidableEq, Repr

/-- `ArrayObject._reduction` from `src/abtem/core/array.py`: `axes = None`
returns the backend's full reduction of the underlying array directly;
otherwise negative axes are offset by `len(self)` (the first dimension, as
written in the source), the `_is_base_axis` guard may raise, the reduced
entries of the ensemble axes metadata are dropped unless `keepdims`, and
the backend reduction produces the new array.  `op` is the backend kernel
selected by the reduction name; `splitEvery` is the dask-only knob. -/
def reduction (x : AObj) (op : List Rat → Rat) (axes : Option (List Int))
    (keepdims : Bool) (_splitEvery : Nat) : Except String ReduceResult :=
  match axes with
  | none => .ok (.raw (op x.array.data) x.array.lazy)
  | some axs =>
    let axsN := axs.map (fun a =>
      if 0 ≤ a then a.toNat else ((x.array.shape.headD 0 : Int) + a).toNat)
    if x.isBaseAxis axsN then .error "base axes cannot be reduced"
    else
      let eam :=
        if keepdims then x.ensemble_axes_metadata
        else
          ((x.ensemble_axes_metadata.zip (List.range x.ensembleShape.length)).filter
            (fun p => p.2 ∉ axsN)).map Prod.fst
      .ok (.obj { x with
        array := reduceArr op x.array axsN keepdims,
        ensemble_axes_metadata := eam })

/-- The backend reduction kernels consumed through `getattr(xp, name)` /
`getattr(da, name)`: one kernel per reduction name. -/
structure Backend where
  meanK : List Rat → Rat
  sumK : List Rat → Rat
  stdK : List Rat → Rat
  minK : List Rat → Rat
  maxK : List Rat → Rat

/-- `ArrayObject.mean`. -/
def AObj.meanR (x : AObj) (bk : Backend) (axes : Option (List Int))
    (keepdims : Bool) : Except String ReduceResult :=
  reduction x bk.meanK axes keepdims 2

/-- `ArrayObject.sum`. -/
def AObj.sumR (x : AObj) (bk : Backend) (axes : Option (List Int))
    (keepdims : Bool) : Except String ReduceResult :=
  reduction x bk.sumK axes keepdims 2

/-- `ArrayObject.std`. -/
def AObj.stdR (x : AObj) (bk : Backend) (axes : Option (List Int))
    (keepdims : Bool) : Except String ReduceResult :=
  reduction x bk.stdK axes keepdims 2

/-- `ArrayObject.min`. -/
def AObj.minR (x : AObj) (bk : Backend) (axes : Option (List Int))
    (keepdims : Bool) : Except String ReduceResult :=
  reduction x bk.minK axes keepdims 2

/-- `ArrayObject.max`. -/
def AObj.maxR (x : AObj) (bk : Backend) (axes : Option (List Int))
    (keepdims : Bool) : Except String ReduceResult :=
  reduction x bk.maxK axes keepdims 2

/-- `ArrayObject._check_is_compatible`: requires the same concrete class,
the same shape, and equality of every constructor kwarg except `array` and
`metadata` (the free-form metadata dict is deliberately not compared). -/
def checkCompatible (x y : AObj) : Except String Unit :=
  if y.cls ≠ x.cls ∨ y.base_dims ≠ x.base_dims then .error "incompatible types"
  else if x.array.shape ≠ y.array.shape then .error "incompatible shapes"
  else if x.ensemble_axes_metadata ≠ y.ensemble_axes_metadata ∨
      x.baseAxesMetadata ≠ y.baseAxesMetadata then .error "incompatible values"
  else .ok ()

/-- `ArrayObject._arithmetic` with an array-object operand: compatibility
check, then the elementwise backend operation on the arrays; all other
kwargs (including `metadata`) are copied from the left operand. -/
def arithmeticO (x y : AObj) (f : Rat → Rat → Rat) : Except String AObj :=
  match checkCompatible x y with
  | .error e => .error e
  | .ok _ => .ok { x with array := zipArr f x.array y.array }

/-- `ArrayObject._in_place_arithmetic`: raises when either operand is lazy,
otherwise defers to `_arithmetic`. -/
def inPlaceArithmeticO (x y : AObj) (f : Rat → Rat → Rat) : Except String AObj :=
  if x.array.lazy || y.array.lazy then
    .error "inplace arithmetic operation not implemented for lazy measurement"
  else arithmeticO x y f

/-- `ArrayObject.__imul__`. -/
def imulO (x y : AObj) : Except String AObj :=
  inPlaceArithmeticO x y (fun a b => a * b)

/-- `ArrayObject.__iadd__`. -/
def iaddO (x y : AObj) : Except String AObj :=
  inPlaceArithmeticO x y (fun a b => a + b)

/-- `ArrayObject.__isub__`. -/
def isubO (x y : AObj) : Except String AObj :=
  inPlaceArithmeticO x y (fun a b => a - b)

/-- `ArrayObject.__itruediv__` exactly as written in the source: it calls
`_arithmetic` directly, not `_in_place_arithmetic`. -/
def itruedivO (x y : AObj) : Except String AObj :=
  arithmeticO x y (fun a b => a / b)

/-- `ArrayObject.get_items` from `src/abtem/core/array.py`: `keepdims`
turns integer items into length-one slices; more non-`None` items than
ensemble axes raises; `None` items insert an `UnknownAxis`; an integer item
merges `expanded_axes_metadata[i].item_metadata(0)` (the literal index 0 of
the source) into the metadata and drops the axis; other items keep the
(re-sliced) axis; remaining axes are appended; the array is indexed with
the items. -/
def getItems (x : AObj) (items0 : List Item) (keepdims : Bool) : Except String AObj :=
  let items :=
    if keepdims then
      items0.map (fun it => match it with | .idx i => .slc i (i + 1) | _ => it)
    else items0
  if (items.filter (fun it => match it with | .newaxis => false | _ => true)).length >
      x.ensembleShape.length then
    .error "base axes cannot be indexed"
  else
    let expanded := items.enum.foldl
      (fun acc p => match p.2 with
        | Item.newaxis => listInsertAt acc p.1 AxisMetadata.unknown
        | _ => acc)
      x.ensemble_axes_metadata
    let md := items.enum.foldl
      (fun acc p => match p.2 with
        | Item.idx _ => mergeDict acc (itemMeta (expanded.getD p.1 .unknown) 0)
        | _ => acc)
      ([] : List (String × String))
    let am := items.enum.foldl
      (fun acc p => match p.2 with
        | Item.idx _ => acc
        | it => acc ++ [axisGet (expanded.getD p.1 .unknown) it])
      ([] : List AxisMetadata)
    .ok { x with
      array := indexArr x.array items,
      ensemble_axes_metadata := am ++ expanded.drop items.length,
      metadata := mergeDict x.metadata md }

/-- `ArrayObject.expand_dims`: axes are normalized, positions past the
expanded ensemble region raise, default metadata is `UnknownAxis`, and the
metadata entries are inserted in order. -/
def expandDims (x : AObj) (axis : Option (List Int))
    (axisMetadata : Option (List AxisMetadata)) : Except String AObj :=
  let axs := axis.getD [0]
  let am := axisMetadata.getD (List.replicate axs.length AxisMetadata.unknown)
  let axsN := axs.map (fun a =>
    if 0 ≤ a then a.toNat else ((x.array.shape.length : Int) + a).toNat)
  if axsN.any (fun a => x.ensembleShape.length + axsN.length ≤ a) then
    .error "expand_dims position outside ensemble region"
  else
    .ok { x with
      array := expandArr x.array axsN,
      ensemble_axes_metadata :=
        (axsN.zip am).foldl (fun acc p => listInsertAt acc p.1 p.2)
          x.ensemble_axes_metadata }

/-- `ArrayObject.squeeze`: removes the requested (default: all) size-one
ensemble dimensions, never base dimensions. -/
def squeezeO (x : AObj) (axis : Option (List Int)) : AObj :=
  if x.array.shape.length < x.baseShape.length then x
  else
    let axsN := match axis with
      | none => List.range x.array.shape.length
      | some a => a.map (fun i : Int =>
          if 0 ≤ i then i.toNat else ((x.array.shape.length : Int) + i).toNat)
    let shapeEns := pyInit x.array.shape x.baseShape.length
    let squeezed := (shapeEns.enum.filter (fun p => p.2 = 1 ∧ p.1 ∈ axsN)).map Prod.fst
    { x with
      array := squeezeArr x.array squeezed,
      ensemble_axes_metadata :=
        (x.ensemble_axes_metadata.enum.filter (fun p => p.1 ∉ squeezed)).map Prod.snd }

/-- The `axis_metadata` argument of the module-level `stack`. -/
inductive StackAxisMeta where
  | missing
  | axisMeta (a : AxisMetadata)
  | labels (ls : List String)
deriving DecidableEq, Repr

/-- `ArrayObject._stack`: stacks the backing arrays along the new axis and
inserts the new axis metadata into a copy of the first object's ensemble
axes metadata; all other kwargs come from the first object. -/
def stackUnder (a : AObj) (arrays : List AObj) (am : AxisMetadata) (axis : Nat) : AObj :=
  { a with
    array := stackArr (arrays.map (fun o => o.array)) axis,
    ensemble_axes_metadata := listInsertAt a.ensemble_axes_metadata axis am }

/-- The module-level `stack` of `src/abtem/core/array.py`: asserts
`axis <= len(ensemble_shape)` (and `axis >= 0`, free for `Nat`), defaults
`axis_metadata=None` to `UnknownAxis`, turns a list of labels into an
`OrdinalAxis`, and delegates to `_stack` on the first object. -/
def stackA (arrays : List AObj) (am : StackAxisMeta) (axis : Nat) : Except String AObj :=
  match arrays with
  | [] => .error "index error"
  | a :: rest =>
    if axis ≤ a.ensembleShape.length then
      let m := match am with
        | .missing => AxisMetadata.unknown
        | .axisMeta x => x
        | .labels ls => .ordinal "" ls
      .ok (stackUnder a (a :: rest) m axis)
    else .error "assert axis within ensemble axes"

/-- `CompositeWaveTransform.apply` from `src/abtem/core/transform.py`
(lines 131–137): the member transforms are applied in REVERSED order —
`for wave_transform in reversed(self.wave_transforms)`.  Members are
modelled by their `apply` functions; the grid-definedness precondition and
the `in_place` flag passed through to members are elided. -/
def compositeWaveApply (transforms : List (AObj → AObj)) (waves : AObj) : AObj :=
  transforms.reverse.foldl (fun w t => t w) waves

/-- `CompositeArrayObjectTransform._calculate_new_array` from
`src/abtem/transform.py` (single-output branch): the member transforms are
applied in FORWARD order (`for transform in self.transforms`) and the
resulting object's backing array is returned. -/
def compositeCalcNewArray (transforms : List (AObj → AObj)) (x : AObj) : Arr :=
  (transforms.foldl (fun acc t => t acc) x).array

/-- The half-open rectangle membership test of
`CustomScan.sort_into_extents`: `x0 <= px < x1` and `y0 <= py < y1`. -/
def inExtent (xe ye : Rat × Rat) (p : Rat × Rat) : Bool :=
  decide (xe.1 ≤ p.1) && decide (p.1 < xe.2) && decide (ye.1 ≤ p.2) && decide (p.2 < ye.2)

/-- `itertools.product(*extents)` for the two extent lists, in row-major
order. -/
def prodExtents (xext yext : List (Rat × Rat)) : List ((Rat × Rat) × (Rat × Rat)) :=
  (xext.map (fun xe => yext.map (fun ye => (xe, ye)))).flatten

/-- The per-bucket position counts accumulated by
`CustomScan.sort_into_extents` (`chunks` in the source): for each extent
pair, the number of scan positions falling in its rectangle. -/
def sortChunks (positions : List (Rat × Rat)) (xext yext : List (Rat × Rat)) : List Nat :=
  (prodExtents xext yext).map (fun b => (positions.filter (inExtent b.1 b.2)).length)

/-- `CustomScan.sort_into_extents` from `src/abtem/waves/scan.py`: buckets
the positions by extent rectangle and asserts that the bucket counts sum to
the total position count (`assert sum(chunks) == len(self)`); when the sum
exceeds the total the numpy slice assignment into `zeros_like(positions)`
already fails, so any mismatch is an error. -/
def sortIntoExtents (positions : List (Rat × Rat)) (xext yext : List (Rat × Rat)) :
    Except String (List (Rat × Rat) × List Nat) :=
  let chunks := sortChunks positions xext yext
  if chunks.sum = positions.length then
    .ok (((prodExtents xext yext).map (fun b => positions.filter (inExtent b.1 b.2))).flatten,
      chunks)
  else .error "assert sum of chunks equals number of positions"

/-- Modelled from the spec: the per-axis dict produced by `axis_to_dict` of
the missing `abtem/core/axes.py`, a JSON object holding the axis class name
(`typeTag`) and the axis fields (spec section 6: axis metadata is stored
JSON-encoded with the class name recorded). -/
structure AxisDict where
  typeTag : String
  label : String := ""
  strValues : List String := []
  ratValues : List Rat := []
  pairValues : List (Rat × Rat) := []
  sampling : Rat := 0
  offset : Rat := 0
  flag : Bool := false
deriving DecidableEq, Repr

/-- Modelled from the spec: `axis_to_dict` — serialize one axis-metadata
object to its per-axis dict. -/
def axisToDict : AxisMetadata → AxisDict
  | .unknown => { typeTag := "UnknownAxis" }
  | .ordinal label vs => { typeTag := "OrdinalAxis", label := label, strValues := vs }
  | .param label vs m =>
      { typeTag := "ParameterAxis", label := label, ratValues := vs, flag := m }
  | .scanAx label sampling offset endpoint =>
      { typeTag := "ScanAxis", label := label, sampling := sampling, offset := offset,
        flag := endpoint }
  | .positions vs => { typeTag := "PositionsAxis", pairValues := vs }

/-- Modelled from the spec: `axis_from_dict` — rebuild the axis-metadata
object from its per-axis dict, dispatching on the recorded class name. -/
def axisFromDict (d : AxisDict) : AxisMetadata :=
  match d.typeTag with
  | "OrdinalAxis" => .ordinal d.label d.strValues
  | "ParameterAxis" => .param d.label d.ratValues d.flag
  | "ScanAxis" => .scanAx d.label d.sampling d.offset d.flag
  | "PositionsAxis" => .positions d.pairValues
  | _ => .unknown

/-- The packed constructor kwargs stored as the `kwargs{i}` attribute by
`ComputableList.to_zarr`: `_pack_kwargs` JSON-encodes only the
`ensemble_axes_metadata` entry and stores every other kwarg unchanged. -/
structure PackedKwargs where
  base_dims : Nat
  baseAxesMetadata : List AxisMetadata
  eamDicts : List AxisDict
  metadata : List (String × String)
deriving DecidableEq, Repr

/-- `ArrayObject._pack_kwargs` applied to `_copy_kwargs(exclude=("array",))`. -/
def packKwargs (x : AObj) : PackedKwargs :=
  { base_dims := x.base_dims,
    baseAxesMetadata := x.baseAxesMetadata,
    eamDicts := x.ensemble_axes_metadata.map axisToDict,
    metadata := x.metadata }

/-- A zarr container as written by `ComputableList.to_zarr`: array
component `array{i}`, attribute `kwargs{i}` and attribute `type{i}` for
each stored object. -/
structure ZarrStore where
  arrays : List Arr
  kwargsAttrs : List PackedKwargs
  typeAttrs : List String
deriving DecidableEq, Repr

/-- `ComputableList.to_zarr`: each object is made lazy (`ensure_lazy`),
moved to host memory, its computed array stored as `array{i}`, and its
packed kwargs and class name recorded as the `kwargs{i}` / `type{i}`
attributes. -/
def toZarrList (xs : List AObj) : ZarrStore :=
  { arrays := xs.map (fun x => { x.array with lazy := true }),
    kwargsAttrs := xs.map packKwargs,
    typeAttrs := xs.map (fun x => x.cls) }

/-- `ArrayObject.to_zarr`: wraps the object in a one-element
`ComputableList` and stores it. -/
def toZarr (x : AObj) : ZarrStore :=
  toZarrList [x]

/-- The module-level `from_zarr` of `src/abtem/core/array.py`: reads
`type{i}` attributes until the first missing index, resolves each class
name, unpacks `kwargs{i}` (decoding the ensemble axes metadata), and
re-attaches the on-disc array as a lazy `dask.array.from_zarr` array. -/
def fromZarrList (s : ZarrStore) : List AObj :=
  (List.range s.typeAttrs.length).map (fun i =>
    let kw := s.kwargsAttrs.getD i ⟨0, [], [], []⟩
    let arr := s.arrays.getD i ⟨[], [], false⟩
    { array := { arr with lazy := true },
      base_dims := kw.base_dims,
      baseAxesMetadata := kw.baseAxesMetadata,
      ensemble_axes_metadata := kw.eamDicts.map axisFromDict,
      metadata := kw.metadata,
      cls := s.typeAttrs.getD i "" })

/-- True exactly when an `Except` is `ok`. -/
def exOk {α : Type} : Except String α → Bool
  | .ok _ => true
  | .error _ => false

/-- The error message of a failed `Except`, if any. -/
def exErr {α : Type} : Except String α → Option String
  | .ok _ => none
  | .error m => some m

lemma axisDict_roundtrip (a : AxisMetadata) : axisFromDict (axisToDict a) = a := by
  cases a <;> rfl

lemma sum_map_add {α : Type} (l : List α) (f g : α → Nat) :
    (l.map (fun a => f a + g a)).sum = (l.map f).sum + (l.map g).sum := by
  induction l with
  | nil => simp
  | cons a l ih => simp [ih]; omega

lemma sum_map_zero {α : Type} (l : List α) : (l.map (fun _ => (0 : Nat))).sum = 0 := by
  induction l <;> simp [*]

lemma countP_eq_sum_ite {α : Type} (l : List α) (q : α → Bool) :
    l.countP q = (l.map (fun a => if q a then 1 else 0)).sum := by
  induction l with
  | nil => simp
  | cons a l ih =>
    by_cases h : q a
    · simp [List.countP_cons, h, ih]
      omega
    · simp [List.countP_cons, h, ih]

/-- Double counting: summing bucket sizes over all buckets equals summing,
over the elements, the number of buckets each element falls into. -/
lemma sum_filter_lengths {α β : Type} (B : List β) (l : List α) (pred : β → α → Bool) :
    (B.map (fun b => (l.filter (pred b)).length)).sum
      = (l.map (fun p => B.countP (fun b => pred b p))).sum := by
  induction B with
  | nil => simp [sum_map_zero]
  | cons b B ih =>
    have hfun : (fun p => (b :: B).countP (fun b2 => pred b2 p))
        = (fun p => B.countP (fun b2 => pred b2 p) + if pred b p then 1 else 0) := by
      funext p
      simp [List.countP_cons]
    rw [List.map_cons, List.sum_cons, hfun, sum_map_add, ih, ← countP_eq_sum_ite,
      List.countP_eq_length_filter]
    omega

lemma sum_map_one_of {α : Type} (l : List α) (f : α → Nat) (h : ∀ a ∈ l, f a = 1) :
    (l.map f).sum = l.length := by
  induction l with
  | nil => simp
  | cons a l ih =>
    simp [h a (by simp), ih (fun b hb => h b (by simp [hb]))]
    omega

/-- An eager 2×3×4 array object with ensemble shape (2, 3), base shape
(4,), and two ordinal ensemble axes, as in the spec's concrete scenario. -/
def x0 : AObj :=
  ⟨⟨[2, 3, 4], List.replicate 24 0, false⟩, 1, [.unknown],
    [.ordinal "a" ["u", "v"], .ordinal "b" ["p", "q", "r"]], [], "M"⟩

/-- Claim C1: the spec says a reduction over an axis index at or past
`len(ensemble_shape)` (a base axis) raises and a reduction over a valid
ensemble axis does not.  The code does the opposite on `x0` (ensemble
shape (2, 3), one base axis at index 2): reducing ensemble axis 0 raises
"base axes cannot be reduced" while reducing base axis 2 succeeds, because
`_is_base_axis` intersects with `range(len(base_shape))` — the leading
axis indices — instead of the trailing ones. -/
theorem c1_reduction_base_axis_check_inverted :
    exErr (reduction x0 List.sum (some [0]) false 2) = some "base axes cannot be reduced" ∧
    exOk (reduction x0 List.sum (some [2]) false 2) = true := by
  decide

/-- Shape bookkeeping of a reduction result: the rank of the array and
`len(ensemble_axes_metadata) + base_dims` of the produced object. -/
def reductionShapeInfo (r : Except String ReduceResult) : Option (Nat × Nat) :=
  match r with
  | .ok (.obj y) => some (y.array.shape.length, y.ensemble_axes_metadata.length + y.base_dims)
  | _ => none

/-- Claim C6: the invariant `len(shape) == len(ensemble_axes_metadata) +
base_dims` is NOT preserved by every operation: reducing `x0` over its base
axis (index 2) is accepted — see C1 — and yields an object of rank 2 that
still carries 2 ensemble metadata entries plus 1 base dimension, so the
two sides of the invariant are 2 and 3. -/
theorem c6_reduction_breaks_shape_invariant :
    reductionShapeInfo (reduction x0 List.sum (some [2]) false 2) = some (2, 3) ∧
    (2 : Nat) ≠ 3 := by
  decide

/-- Observable part of a `get_items` result: shape, ensemble axes metadata
and the free-form metadata dict. -/
def getItemsInfo (r : Except String AObj) :
    Option (List Nat × List AxisMetadata × List (String × String)) :=
  match r with
  | .ok y => some (y.array.shape, y.ensemble_axes_metadata, y.metadata)
  | .error _ => none

/-- Claim C2: `get_items((1,))` on `x0` removes ensemble axis 0 and leaves
one axis of length 3 as claimed, but the metadata gains `("a", "u")` — the
axis value at index 0 — because the source calls `item_metadata(0)` with a
literal index instead of the selected item; the item metadata for the
selected index 1 would have been `("a", "v")`. -/
theorem c2_get_items_folds_item_metadata_zero :
    getItemsInfo (getItems x0 [Item.idx 1] false) =
      some ([3, 4], [.ordinal "b" ["p", "q", "r"]], [("a", "u")]) ∧
    itemMeta (.ordinal "a" ["u", "v"]) 1 = [("a", "v")] := by
  decide

/-- A lazy array object (dask-backed), for the in-place arithmetic claims. -/
def xLazy : AObj := ⟨⟨[2], [1, 2], true⟩, 1, [.unknown], [], [], "M"⟩

/-- A second lazy array object compatible with `xLazy`. -/
def yLazy : AObj := ⟨⟨[2], [3, 4], true⟩, 1, [.unknown], [], [], "M"⟩

/-- Claim C5: on lazy operands the in-place operations `*=`, `+=` and `-=`
raise the unsupported-operation error as claimed, but `/=` does not: the
source's `__itruediv__` calls `_arithmetic` instead of
`_in_place_arithmetic`, so the lazy guard is bypassed and the call
succeeds. -/
theorem c5_itruediv_bypasses_lazy_guard :
    exErr (imulO xLazy yLazy) =
      some "inplace arithmetic operation not implemented for lazy measurement" ∧
    exErr (iaddO xLazy yLazy) =
      some "inplace arithmetic operation not implemented for lazy measurement" ∧
    exErr (isubO xLazy yLazy) =
      some "inplace arithmetic operation not implemented for lazy measurement" ∧
    exOk (itruedivO xLazy yLazy) = true := by
  decide

/-- A member transform that overwrites the backing data with `[3]`. -/
def ctSetThree : AObj → AObj :=
  fun w => { w with array := { w.array with data := [3] } }

/-- A member transform that overwrites the backing data with `[5]`. -/
def ctSetFive : AObj → AObj :=
  fun w => { w with array := { w.array with data := [5] } }

/-- A one-element wave function for the composite-order counterexample. -/
def cWaves : AObj := ⟨⟨[1], [1], false⟩, 1, [.unknown], [], [], "Waves"⟩

/-- Claim C3 counterexample: for the composite wave transform built from
members `[A, B]` with `A = ctSetThree` and `B = ctSetFive`, applying the
composite does NOT equal applying A then B: `CompositeWaveTransform.apply`
iterates the members in reversed order, so the result is `A (B x)` (data
`[3]`), not `B (A x)` (data `[5]`). -/
theorem c3_composite_wave_reverse_order_counterexample :
    compositeWaveApply [ctSetThree, ctSetFive] cWaves ≠ ctSetFive (ctSetThree cWaves) ∧
    compositeWaveApply [ctSetThree, ctSetFive] cWaves = ctSetThree (ctSetFive cWaves) := by
  decide

/-- Claim C3 (amended): `CompositeArrayObjectTransform._calculate_new_array`
applies the members `[A, B]` in forward order — the computed array equals
the one obtained by applying A then B sequentially — while
`CompositeWaveTransform.apply` applies them in reverse order, B first. -/
theorem c3_composite_order_amended (A B : AObj → AObj) (x w : AObj) :
    compositeCalcNewArray [A, B] x = (B (A x)).array ∧
      compositeWaveApply [A, B] w = A (B w) :=
  ⟨rfl, rfl⟩

/-- Claim C4: reading back with `from_zarr` after `to_zarr` reproduces the
object exactly — array values, concrete class, shape, ensemble and base
axes metadata, free-form metadata — for eager and lazy inputs alike; the
only difference is that the re-attached array is lazy
(`dask.array.from_zarr`). -/
theorem c4_zarr_roundtrip (x : AObj) :
    fromZarrList (toZarr x) = [{ x with array := { x.array with lazy := true } }] := by
  have h01 : List.range 1 = [0] := rfl
  simp [fromZarrList, toZarr, toZarrList, packKwargs, h01]
  rw [show axisFromDict ∘ axisToDict = id from funext axisDict_roundtrip, List.map_id]

/-- Claim C7 counterexample: `sort_into_extents` of a `CustomScan` with the
single position (2, 2) and extents `([(0, 1)], [(0, 1)])` produces the
bucket counts `[0]`, whose sum 0 differs from the position count 1, so the
completeness assertion fails — it does not hold for every input. -/
theorem c7_sort_into_extents_counterexample :
    sortChunks [((2 : Rat), 2)] [((0 : Rat), 1)] [((0 : Rat), 1)] = [0] ∧
    exErr (sortIntoExtents [((2 : Rat), 2)] [((0 : Rat), 1)] [((0 : Rat), 1)]) =
      some "assert sum of chunks equals number of positions" := by
  decide

/-- Claim C7 (amended): when every scan position lies in exactly one extent
rectangle (the extents partition the positions), the per-bucket counts of
`CustomScan.sort_into_extents` sum to the total position count and the
completeness assertion passes. -/
theorem c7_sort_into_extents_partition_sum (positions xext yext : List (Rat × Rat))
    (h : ∀ p ∈ positions,
      (prodExtents xext yext).countP (fun b => inExtent b.1 b.2 p) = 1) :
    (sortChunks positions xext yext).sum = positions.length ∧
      exOk (sortIntoExtents positions xext yext) = true := by
  have hsum : (sortChunks positions xext yext).sum = positions.length := by
    unfold sortChunks
    rw [sum_filter_lengths]
    exact sum_map_one_of _ _ h
  refine ⟨hsum, ?_⟩
  unfold sortIntoExtents
  simp [hsum, exOk]

/-- A one-position scan lying inside the single extent rectangle. -/
def posW : List (Rat × Rat) := [(0, 0)]

/-- Witness for claim C7's amended theorem at a concrete partitioning
input. -/
theorem c7_sort_into_extents_partition_sum_witness :
    (∀ p ∈ posW, (prodExtents [((0 : Rat), 1)] [((0 : Rat), 1)]).countP
        (fun b => inExtent b.1 b.2 p) = 1) ∧
    ((sortChunks posW [((0 : Rat), 1)] [((0 : Rat), 1)]).sum = posW.length ∧
      exOk (sortIntoExtents posW [((0 : Rat), 1)] [((0 : Rat), 1)]) = true) :=
  ⟨by decide, c7_sort_into_extents_partition_sum posW [((0 : Rat), 1)] [((0 : Rat), 1)]
    (by decide)⟩

/-- Claim C8: stacking three array objects of shape (4,) along a new axis 0
with `axis_metadata=None` yields an object of shape (3, 4) whose single
ensemble axis is an `UnknownAxis`. -/
theorem c8_stack_three_unknown_axis (a b c : AObj)
    (h1 : a.array.shape = [4]) (_h2 : a.base_dims = 1)
    (h3 : a.ensemble_axes_metadata = []) :
    ∃ y, stackA [a, b, c] .missing 0 = .ok y ∧ y.array.shape = [3, 4] ∧
      y.ensemble_axes_metadata = [AxisMetadata.unknown] := by
  refine ⟨stackUnder a [a, b, c] .unknown 0, ?_, ?_, ?_⟩
  · simp [stackA]
  · simp [stackUnder, stackArr, listInsertAt, h1]
  · simp [stackUnder, listInsertAt, h3]

/-- First shape-(4,) object for the stacking witness. -/
def a8 : AObj := ⟨⟨[4], [0, 1, 2, 3], false⟩, 1, [.unknown], [], [], "M"⟩

/-- Second shape-(4,) object for the stacking witness. -/
def b8 : AObj := ⟨⟨[4], [4, 5, 6, 7], false⟩, 1, [.unknown], [], [], "M"⟩

/-- Third shape-(4,) object for the stacking witness. -/
def c8o : AObj := ⟨⟨[4], [8, 9, 10, 11], false⟩, 1, [.unknown], [], [], "M"⟩

/-- Witness for claim C8 at three concrete shape-(4,) objects. -/
theorem c8_stack_three_unknown_axis_witness :
    a8.array.shape = [4] ∧ a8.base_dims = 1 ∧ a8.ensemble_axes_metadata = [] ∧
    (∃ y, stackA [a8, b8, c8o] .missing 0 = .ok y ∧ y.array.shape = [3, 4] ∧
      y.ensemble_axes_metadata = [AxisMetadata.unknown]) :=
  ⟨rfl, rfl, rfl, c8_stack_three_unknown_axis a8 b8 c8o rfl rfl rfl⟩

/-- Claim C9: two array objects of the same class and shape differing only
in their free-form metadata dicts pass the compatibility check (it excludes
`metadata` from the compared kwargs), elementwise arithmetic succeeds, and
the result keeps the left operand's metadata and ensemble axes metadata —
only the backing array changes. -/
theorem c9_arithmetic_ignores_metadata (x : AObj) (m : List (String × String))
    (f : Rat → Rat → Rat) :
    arithmeticO x { x with metadata := m } f =
      .ok { x with array := zipArr f x.array x.array } := by
  simp [arithmeticO, checkCompatible]

/-- Claim C10: every reduction called with `axis=None` returns the raw
backend reduction of the underlying array — a bare scalar, lazy exactly
when the input array is lazy — not an array object, and attaches no axis
metadata. -/
theorem c10_reduction_axis_none_raw_value (x : AObj) (bk : Backend) (keepdims : Bool) :
    x.meanR bk none keepdims = .ok (.raw (bk.meanK x.array.data) x.array.lazy) ∧
    x.sumR bk none keepdims = .ok (.raw (bk.sumK x.array.data) x.array.lazy) ∧
    x.stdR bk none keepdims = .ok (.raw (bk.stdK x.array.data) x.array.lazy) ∧
    x.minR bk none keepdims = .ok (.raw (bk.minK x.array.data) x.array.lazy) ∧
    x.maxR bk none keepdims = .ok (.raw (bk.maxK x.array.data) x.array.lazy) :=
  ⟨rfl, rfl, rfl, rfl, rfl⟩
